import Mathlib

/-!
Verification of the orvium-tools deposit import/export orchestration.

The TypeScript sources (src/import.ts and the export module) are embedded
shallowly: every network or filesystem effect is resolved by an explicit
environment record, every function returns its result together with the
trace of the effects it performed, and the export pipeline additionally
threads an explicit local filesystem state. Promise rejection is modelled
by the `Res.err` constructor, normal resolution by `Res.ok`.
-/

/-- Outcome of a JavaScript promise / throwing computation: `ok` models
normal resolution, `err` models rejection with an error message. -/
inductive Res (α : Type) where
  | ok (val : α)
  | err (msg : String)
deriving DecidableEq, Repr

/-- True exactly when the result is a normal resolution. -/
def Res.isOk {α : Type} : Res α → Bool
  | .ok _ => true
  | .err _ => false

/-- A local path, kept as the directory it was joined from and the base
name, mirroring `path.join(dir, base)` in the source. -/
structure LocalPath where
  dir : String
  base : String
deriving DecidableEq, Repr

/-- `FileMetadata` from deposit-interfaces.ts. -/
structure FileMetadata where
  filename : String
  description : String
  contentType : String
  contentLength : Nat
  tags : List String
deriving DecidableEq, Repr

/-- `UploadSignedUrlResponse` from deposit-interfaces.ts. -/
structure UploadSignedUrlResponse where
  signedUrl : String
  fileMetadata : FileMetadata
  isMainFile : Bool
  replacePDF : Bool
deriving DecidableEq, Repr

/-- The object sent by `confirmManuscriptImported`: the rest-spread of an
`UploadSignedUrlResponse` after destructuring away `signedUrl`.  Its fields
are exactly the remaining three. -/
structure ConfirmBody where
  fileMetadata : FileMetadata
  isMainFile : Bool
  replacePDF : Bool
deriving DecidableEq, Repr

/-- `Author` from deposit-interfaces.ts; the optional interface fields
become `Option`s.  Note the interface declares no `email` property. -/
structure Author where
  firstName : String
  lastName : String
  nickName : Option String
  orcid : Option String
deriving DecidableEq, Repr

/-- `InputAuthor` from deposit-interfaces.ts. -/
structure InputAuthor where
  author_id : Int
  user_id : Option Int
  first_name : String
  middle_name : String
  last_name : String
  orcid : String
  date_modified : Option String
deriving DecidableEq, Repr

/-- The nested `manuscript: { filename }` object of a `Deposit`. -/
structure Manuscript where
  filename : String
deriving DecidableEq, Repr

/-- `Deposit` from deposit-interfaces.ts (import request shape). -/
structure Deposit where
  title : String
  community : String
  abstract : String
  authors : List Author
  disciplines : List String
  keywords : List String
  manuscript : Manuscript
deriving DecidableEq, Repr

/-- The body actually posted by `importSingleDeposit`: the rest-spread of a
`Deposit` after destructuring away `manuscript`. -/
structure DepositNoManuscript where
  title : String
  community : String
  abstract : String
  authors : List Author
  disciplines : List String
  keywords : List String
deriving DecidableEq, Repr

/-- The parsed content of `meta.json` as `importDeposit` reads it: the same
fields as a `Deposit` except that `community` comes from the caller and the
authors are still in the raw `InputAuthor` shape. -/
structure ParsedMeta where
  title : String
  abstract : String
  authors : List InputAuthor
  disciplines : List String
  keywords : List String
  manuscript : Manuscript
deriving DecidableEq, Repr

/-- `ManuscriptMetadata` from deposit-interfaces.ts. -/
structure ManuscriptFile where
  name : String
  type : String
  size : Nat
  lastModified : Nat
deriving DecidableEq, Repr

structure ManuscriptMetadata where
  file : ManuscriptFile
deriving DecidableEq, Repr

/-- Result of `fs.statSync` on the manuscript. -/
structure FileStats where
  size : Nat
  mtimeMs : Nat
deriving DecidableEq, Repr

/-- The create-deposit response body: `_id` is present or absent. -/
structure CreateResponse where
  _id : Option String
deriving DecidableEq, Repr

/-- Events the import pipeline can perform, in the order they are emitted. -/
inductive IEvent where
  | loadMeta (dir : String)
  | statFile (p : LocalPath)
  | createDeposit (body : DepositNoManuscript)
  | negotiateUpload (depositId : String) (m : ManuscriptMetadata)
  | putBytes (url : String) (size : Nat)
  | confirmUpload (depositId : String) (body : ConfirmBody)
  | logError (msg : String)
deriving DecidableEq, Repr

/-- The four remote stages of the import claim: create-deposit,
upload-negotiation, byte transfer, confirmation. -/
inductive Stage where
  | create
  | negotiate
  | transfer
  | confirmB
deriving DecidableEq, Repr

/-- Which remote stage, if any, an event belongs to. -/
def stageOf : IEvent → Option Stage
  | .createDeposit _ => some .create
  | .negotiateUpload _ _ => some .negotiate
  | .putBytes _ _ => some .transfer
  | .confirmUpload _ _ => some .confirmB
  | _ => none

/-- The remote stages performed by a trace, in order. -/
def stagesOf (tr : List IEvent) : List Stage := tr.filterMap stageOf

/-- Environment resolving every effect the import pipeline performs. -/
structure ImportEnv where
  metaResult : Res ParsedMeta
  statResult : Res FileStats
  createResult : Res CreateResponse
  negotiateResult : Res UploadSignedUrlResponse
  putResult : Res Unit
  confirmResult : Res Unit
deriving DecidableEq, Repr

/-- `loadJsonFile` of import.ts: read and parse `<dir>/meta.json`; on
failure it logs and rethrows. -/
def loadJsonFile (directoryPath : String) (env : ImportEnv) :
    Res ParsedMeta × List IEvent :=
  match env.metaResult with
  | .ok m => (.ok m, [.loadMeta directoryPath])
  | .err e => (.err e, [.loadMeta directoryPath, .logError e])

/-- The fixed MIME type declared by `createManuscriptMetadata`. -/
def mimeDocx : String :=
  "application/vnd.openxmlformats-officedocument.wordprocessingml.document"

/-- `createManuscriptMetadata` of import.ts: stat the file and build the
payload; `statSync` failures propagate uncaught. -/
def createManuscriptMetadata (manuscriptPath : LocalPath) (env : ImportEnv) :
    Res ManuscriptMetadata × List IEvent :=
  match env.statResult with
  | .ok st =>
      (.ok ⟨⟨manuscriptPath.base, mimeDocx, st.size, st.mtimeMs⟩⟩,
        [.statFile manuscriptPath])
  | .err e => (.err e, [.statFile manuscriptPath])

/-- `transformAuthor` of import.ts: keep first/last name and orcid. -/
def transformAuthor (inputAuthor : InputAuthor) : Author :=
  { firstName := inputAuthor.first_name
    lastName := inputAuthor.last_name
    nickName := none
    orcid := some inputAuthor.orcid }

/-- The rest-spread `(({ manuscript, ...rest }) => rest)(deposit)` used by
`importSingleDeposit`. -/
def depositWithoutManuscript (deposit : Deposit) : DepositNoManuscript :=
  { title := deposit.title
    community := deposit.community
    abstract := deposit.abstract
    authors := deposit.authors
    disciplines := deposit.disciplines
    keywords := deposit.keywords }

/-- `importSingleDeposit` of import.ts: POST the deposit without its
manuscript field; log and rethrow on failure; throw when `_id` is absent. -/
def importSingleDeposit (deposit : Deposit) (env : ImportEnv) :
    Res String × List IEvent :=
  let body := depositWithoutManuscript deposit
  match env.createResult with
  | .err e => (.err e, [.createDeposit body, .logError e])
  | .ok resp =>
      match resp._id with
      | some theId => (.ok theId, [.createDeposit body])
      | none =>
          (.err "Deposit ID not found in the response",
            [.createDeposit body,
              .logError "Deposit ID not found in the response"])

/-- `generateManuscriptUploadUrl` of import.ts: POST the manuscript
metadata to the upload endpoint; log and rethrow on failure. -/
def generateManuscriptUploadUrl (depositId : String)
    (manuscriptMetadata : ManuscriptMetadata) (env : ImportEnv) :
    Res UploadSignedUrlResponse × List IEvent :=
  match env.negotiateResult with
  | .ok r => (.ok r, [.negotiateUpload depositId manuscriptMetadata])
  | .err e =>
      (.err e, [.negotiateUpload depositId manuscriptMetadata, .logError e])

/-- `uploadManuscriptToSignedUrl` of import.ts: PUT the bytes to the signed
URL with the measured content length; log and rethrow on failure. -/
def uploadManuscriptToSignedUrl (manuscriptPath : LocalPath)
    (uploadSignedUrlResponse : UploadSignedUrlResponse)
    (manuscriptMetadata : ManuscriptMetadata) (env : ImportEnv) :
    Res Unit × List IEvent :=
  match env.putResult with
  | .ok _ =>
      (.ok (),
        [.putBytes uploadSignedUrlResponse.signedUrl
            manuscriptMetadata.file.size])
  | .err e =>
      (.err e,
        [.putBytes uploadSignedUrlResponse.signedUrl
            manuscriptMetadata.file.size, .logError e])

/-- The destructuring `const { signedUrl, ...manuscriptImportedMetadata }`
performed by `confirmManuscriptImported`. -/
def confirmBodyOf (u : UploadSignedUrlResponse) : ConfirmBody :=
  { fileMetadata := u.fileMetadata
    isMainFile := u.isMainFile
    replacePDF := u.replacePDF }

/-- `confirmManuscriptImported` of import.ts: PATCH the confirmation body
(the response minus `signedUrl`); log and rethrow on failure. -/
def confirmManuscriptImported (depositId : String)
    (uploadSignedUrlResponse : UploadSignedUrlResponse) (env : ImportEnv) :
    Res Unit × List IEvent :=
  let body := confirmBodyOf uploadSignedUrlResponse
  match env.confirmResult with
  | .ok _ => (.ok (), [.confirmUpload depositId body])
  | .err e => (.err e, [.confirmUpload depositId body, .logError e])

/-- The try-block of `importDeposit` of import.ts: the five stages run in
source order, each one awaited before the next starts, any rejection
aborting the rest. -/
def importDepositBody (directoryPath community : String) (env : ImportEnv) :
    Res Unit × List IEvent :=
  match loadJsonFile directoryPath env with
  | (.err e, tr1) => (.err e, tr1)
  | (.ok metaData, tr1) =>
    let deposit : Deposit :=
      { title := metaData.title
        abstract := metaData.abstract
        community := community
        authors := metaData.authors.map transformAuthor
        disciplines := metaData.disciplines
        keywords := metaData.keywords
        manuscript := { filename := metaData.manuscript.filename } }
    let manuscriptName := deposit.manuscript.filename
    match importSingleDeposit deposit env with
    | (.err e, tr2) => (.err e, tr1 ++ tr2)
    | (.ok depositId, tr2) =>
      let manuscriptPath : LocalPath := ⟨directoryPath, manuscriptName⟩
      match createManuscriptMetadata manuscriptPath env with
      | (.err e, tr3) => (.err e, tr1 ++ tr2 ++ tr3)
      | (.ok manuscriptMetadata, tr3) =>
        match generateManuscriptUploadUrl depositId manuscriptMetadata env with
        | (.err e, tr4) => (.err e, tr1 ++ tr2 ++ tr3 ++ tr4)
        | (.ok uploadSignedUrlResponse, tr4) =>
          match uploadManuscriptToSignedUrl manuscriptPath
              uploadSignedUrlResponse manuscriptMetadata env with
          | (.err e, tr5) => (.err e, tr1 ++ tr2 ++ tr3 ++ tr4 ++ tr5)
          | (.ok _, tr5) =>
            match confirmManuscriptImported depositId
                uploadSignedUrlResponse env with
            | (.err e, tr6) => (.err e, tr1 ++ tr2 ++ tr3 ++ tr4 ++ tr5 ++ tr6)
            | (.ok _, tr6) => (.ok (), tr1 ++ tr2 ++ tr3 ++ tr4 ++ tr5 ++ tr6)

/-- `importDeposit` of import.ts: the whole body sits in a try/catch whose
catch only logs, so the returned promise always resolves. -/
def importDeposit (directoryPath community : String) (env : ImportEnv) :
    Res Unit × List IEvent :=
  match importDepositBody directoryPath community env with
  | (.ok _, tr) => (.ok (), tr)
  | (.err e, tr) =>
      (.ok (), tr ++ [.logError ("An error occurred during import or upload: " ++ e)])

/-- All six environment outcomes needed for a fully successful import. -/
def importAllOk (env : ImportEnv) : Bool :=
  env.metaResult.isOk &&
  (match env.createResult with
   | .ok r => r._id.isSome
   | .err _ => false) &&
  env.statResult.isOk &&
  env.negotiateResult.isOk &&
  env.putResult.isOk &&
  env.confirmResult.isOk

/-- Whether loading meta.json succeeds in this environment. -/
def metaOk (env : ImportEnv) : Bool := env.metaResult.isOk

/-- Whether the create-deposit stage succeeds: the request resolves and
the response carries an identifier. -/
def createOk (env : ImportEnv) : Bool :=
  match env.createResult with
  | .ok r => r._id.isSome
  | .err _ => false

/-- Whether the manuscript stat succeeds in this environment. -/
def statOk (env : ImportEnv) : Bool := env.statResult.isOk

/-- Whether the upload-negotiation stage succeeds in this environment. -/
def negotiateOk (env : ImportEnv) : Bool := env.negotiateResult.isOk

/-- Whether the byte-transfer stage succeeds in this environment. -/
def putOk (env : ImportEnv) : Bool := env.putResult.isOk

/-- The shape of the authors actually found in a fetched deposit: the
export code reads `nickName`, `email` and `orcid` off the wire even though
the declared `Author` interface has no `email` property. -/
structure FetchedAuthor where
  firstName : String
  lastName : String
  nickName : Option String
  email : Option String
  orcid : Option String
deriving DecidableEq, Repr

/-- `publicationFile` of a `DepositPopulated`. -/
structure PublicationFile where
  filename : String
  description : String
deriving DecidableEq, Repr

/-- `communityPopulated` of a `DepositPopulated`. -/
structure CommunityPopulated where
  name : String
deriving DecidableEq, Repr

/-- `DepositPopulated` from deposit-interfaces.ts (remote read shape). -/
structure DepositPopulated where
  title : String
  communityPopulated : CommunityPopulated
  abstract : String
  authors : List FetchedAuthor
  disciplines : List String
  keywords : List String
  publicationFile : PublicationFile
deriving DecidableEq, Repr

/-- An author object as rebuilt by `exportDeposit` for the local metadata
document: five always-present string fields, with `|| ''` defaulting. -/
structure ExportAuthor where
  firstName : String
  lastName : String
  nickName : String
  email : String
  orcid : String
deriving DecidableEq, Repr

/-- The local `Deposit` document `exportDeposit` writes to `meta.json`. -/
structure ExportDeposit where
  title : String
  abstract : String
  disciplines : List String
  authors : List ExportAuthor
  keywords : List String
  community : String
  manuscript : Manuscript
deriving DecidableEq, Repr

/-- The per-author mapping inlined in `exportDeposit`:
`nickName: author.nickName || ''`, `email: author.email || ''`,
`orcid: author.orcid || ''`. -/
def rebuildAuthor (author : FetchedAuthor) : ExportAuthor :=
  { firstName := author.firstName
    lastName := author.lastName
    nickName := author.nickName.getD ""
    email := author.email.getD ""
    orcid := author.orcid.getD "" }

/-- The local `Deposit` value `exportDeposit` constructs from the fetched
`DepositPopulated`. -/
def reconstructDeposit (depositPopulated : DepositPopulated) : ExportDeposit :=
  { title := depositPopulated.title
    abstract := depositPopulated.abstract
    disciplines := depositPopulated.disciplines
    authors := depositPopulated.authors.map rebuildAuthor
    keywords := depositPopulated.keywords
    community := depositPopulated.communityPopulated.name
    manuscript := { filename := depositPopulated.publicationFile.description } }

/-- What a local file contains in the export pipeline's filesystem. -/
inductive FileContent where
  | metaDoc (doc : ExportDeposit)
  | manuscriptBytes
  | zipArchive
deriving DecidableEq, Repr

/-- The local filesystem: an association of paths to contents. -/
abbrev FS := List (LocalPath × FileContent)

/-- `fs.writeFileSync` / a completed download: record the file. -/
def fsWrite (p : LocalPath) (c : FileContent) (fs : FS) : FS := (p, c) :: fs

/-- `fs.unlinkSync`: remove every record of the path. -/
def fsUnlink (p : LocalPath) (fs : FS) : FS :=
  fs.filter (fun e => decide (e.1 ≠ p))

/-- Whether a path currently exists. -/
def fsHas (p : LocalPath) (fs : FS) : Bool :=
  fs.any (fun e => decide (e.1 = p))

/-- Events the export pipeline can perform. -/
inductive XEvent where
  | fetchDeposit (depositId : String)
  | requestFileLocation (depositId filename : String) (status : Nat)
  | downloadSigned (url : String)
  | writeMeta (p : LocalPath) (doc : ExportDeposit)
  | writeManuscript (p : LocalPath)
  | archiveFile (src : LocalPath) (entryName : String)
  | archiveFinalize (zip : LocalPath)
  | unlinkFile (p : LocalPath)
  | logError (msg : String)
deriving DecidableEq, Repr

/-- The source path and entry name of an archive-entry event, if any. -/
def archiveEntryOf : XEvent → Option (LocalPath × String)
  | .archiveFile src entryName => some (src, entryName)
  | _ => none

/-- Environment resolving every effect the export pipeline performs. -/
structure ExportEnv where
  fetchResult : Option DepositPopulated
  locationStatus : Nat
  locationHeader : Option String
  signedGetOk : Bool
  archiveOk : Bool
deriving DecidableEq, Repr

/-- `getDepositById` of the export module: returns the populated deposit,
or `none` after logging when the request fails. -/
def getDepositById (depositId : String) (env : ExportEnv) :
    Option DepositPopulated × List XEvent :=
  (env.fetchResult, [.fetchDeposit depositId])

/-- The try-block of `downloadDepositFile`: request the file location
accepting only status 302, read the `location` header (throwing when it is
missing), then fetch the signed URL and write the bytes to
`<downloadPath>/<filename>`. -/
def downloadDepositFileAttempt (depositId filename downloadPath : String)
    (env : ExportEnv) (fs : FS) : Res Unit × FS × List XEvent :=
  if env.locationStatus = 302 then
    match env.locationHeader with
    | none =>
        (.err "Signed URL not found in response headers", fs,
          [.requestFileLocation depositId filename env.locationStatus])
    | some signedUrl =>
        if env.signedGetOk then
          let filePath : LocalPath := ⟨downloadPath, filename⟩
          (.ok (), fsWrite filePath FileContent.manuscriptBytes fs,
            [.requestFileLocation depositId filename env.locationStatus,
              .downloadSigned signedUrl, .writeManuscript filePath])
        else
          (.err "signed url download failed", fs,
            [.requestFileLocation depositId filename env.locationStatus,
              .downloadSigned signedUrl])
  else
    (.err "Request failed with non-redirect status", fs,
      [.requestFileLocation depositId filename env.locationStatus])

/-- `downloadDepositFile` of the export module: the whole body sits in a
try/catch whose catch only logs, so the returned promise always resolves. -/
def downloadDepositFile (depositId filename downloadPath : String)
    (env : ExportEnv) (fs : FS) : Res Unit × FS × List XEvent :=
  match downloadDepositFileAttempt depositId filename downloadPath env fs with
  | (.ok _, fs2, tr) => (.ok (), fs2, tr)
  | (.err e, fs2, tr) => (.ok (), fs2, tr ++ [.logError e])

/-- `exportDeposit` of the export module: fetch the populated deposit
(throwing on the null sentinel), rebuild the local document, write
`meta.json`, download the manuscript under `publicationFile.filename`,
archive both entries (the manuscript under the description-derived name),
and on archive success delete the two loose files. -/
def exportDeposit (depositId downloadPath : String) (env : ExportEnv)
    (fs : FS) : Res Unit × FS × List XEvent :=
  match getDepositById depositId env with
  | (none, tr0) => (.err "depositPopulated cannot be null", fs, tr0)
  | (some depositPopulated, tr0) =>
    let deposit := reconstructDeposit depositPopulated
    let metadataPath : LocalPath := ⟨downloadPath, "meta.json"⟩
    let manuscriptPath : LocalPath :=
      ⟨downloadPath, depositPopulated.publicationFile.filename⟩
    let fs1 := fsWrite metadataPath (FileContent.metaDoc deposit) fs
    let tr1 := tr0 ++ [XEvent.writeMeta metadataPath deposit]
    match downloadDepositFile depositId
        depositPopulated.publicationFile.filename downloadPath env fs1 with
    | (_, fs2, tr2) =>
      let zipFilePath : LocalPath :=
        ⟨downloadPath, "deposit_" ++ depositId ++ ".zip"⟩
      let tr3 := [XEvent.archiveFile metadataPath "meta.json",
                  XEvent.archiveFile manuscriptPath deposit.manuscript.filename]
      if env.archiveOk then
        let fs3 := fsWrite zipFilePath FileContent.zipArchive fs2
        let fs4 := fsUnlink manuscriptPath (fsUnlink metadataPath fs3)
        (.ok (), fs4,
          tr1 ++ tr2 ++ tr3 ++
            [XEvent.archiveFinalize zipFilePath,
              XEvent.unlinkFile metadataPath,
              XEvent.unlinkFile manuscriptPath])
      else
        (.err "archive error", fs2,
          tr1 ++ tr2 ++ tr3 ++ [XEvent.archiveFinalize zipFilePath])

/-- Sample raw author for concrete evaluations. -/
def iaSample : InputAuthor :=
  { author_id := 1, user_id := none, first_name := "Ada", middle_name := "K"
    last_name := "Lovelace", orcid := "0000-0002-1825-0097"
    date_modified := none }

/-- Sample platform file metadata. -/
def fmSample : FileMetadata :=
  { filename := "m.docx", description := "m.docx"
    contentType := "application/octet-stream", contentLength := 10
    tags := [] }

/-- Sample upload-negotiation response. -/
def uSample : UploadSignedUrlResponse :=
  { signedUrl := "https://signed.example", fileMetadata := fmSample
    isMainFile := true, replacePDF := false }

/-- Sample parsed meta.json. -/
def metaSample : ParsedMeta :=
  { title := "T", abstract := "A", authors := [iaSample]
    disciplines := ["d"], keywords := ["k"]
    manuscript := { filename := "m.docx" } }

/-- An import environment in which every stage succeeds. -/
def envAllOk : ImportEnv :=
  { metaResult := .ok metaSample
    statResult := .ok { size := 10, mtimeMs := 5 }
    createResult := .ok { _id := some "id123" }
    negotiateResult := .ok uSample
    putResult := .ok ()
    confirmResult := .ok () }

/-- An import environment in which loading meta.json fails. -/
def envLoadFail : ImportEnv := { envAllOk with metaResult := .err "boom" }

/-- An import environment in which the upload negotiation fails. -/
def envNegotiateFail : ImportEnv :=
  { envAllOk with negotiateResult := .err "refused" }

/-- Sample fetched author with all optional fields absent. -/
def faSample : FetchedAuthor :=
  { firstName := "Ada", lastName := "Lovelace", nickName := none
    email := none, orcid := none }

/-- Sample populated deposit whose filename and description differ. -/
def dpSample : DepositPopulated :=
  { title := "T", communityPopulated := { name := "comm" }, abstract := "A"
    authors := [faSample], disciplines := ["d"], keywords := ["k"]
    publicationFile := { filename := "X.docx", description := "Y.docx" } }

/-- An export environment in which every stage succeeds. -/
def xEnvOk : ExportEnv :=
  { fetchResult := some dpSample, locationStatus := 302
    locationHeader := some "https://u.example", signedGetOk := true
    archiveOk := true }

/-- Export environment whose archive build fails. -/
def xEnvNoArchive : ExportEnv := { xEnvOk with archiveOk := false }

/-- Export environment whose deposit fetch returns the null sentinel. -/
def xEnvNull : ExportEnv := { xEnvOk with fetchResult := none }

/-- Export environment whose file-location request returns status 500. -/
def xEnvBadStatus : ExportEnv :=
  { xEnvOk with locationStatus := 500, locationHeader := none }

/-- Unlinking a path commutes with cons. -/
theorem fsUnlink_cons (q : LocalPath) (e : LocalPath × FileContent) (tl : FS) :
    fsUnlink q (e :: tl) =
      if e.1 = q then fsUnlink q tl else e :: fsUnlink q tl := by
  by_cases he : e.1 = q <;> simp [fsUnlink, List.filter_cons, he]

/-- Existence on a cons cell. -/
theorem fsHas_cons (p : LocalPath) (e : LocalPath × FileContent) (tl : FS) :
    fsHas p (e :: tl) = (decide (e.1 = p) || fsHas p tl) := by
  simp [fsHas]

/-- Unlinking removes the unlinked path and leaves the rest untouched. -/
theorem fsHas_fsUnlink (p q : LocalPath) (fs : FS) :
    fsHas p (fsUnlink q fs) = if p = q then false else fsHas p fs := by
  induction fs with
  | nil => by_cases h : p = q <;> simp [fsHas, fsUnlink, h]
  | cons e tl ih =>
    rw [fsUnlink_cons]
    by_cases he : e.1 = q
    · rw [if_pos he, ih]
      by_cases hpq : p = q
      · simp [hpq]
      · rw [if_neg hpq, if_neg hpq, fsHas_cons]
        have hd : decide (e.1 = p) = false := by
          simp only [decide_eq_false_iff_not]
          intro hep
          exact hpq (hep ▸ he)
        simp [hd]
    · rw [if_neg he, fsHas_cons, fsHas_cons, ih]
      by_cases hpq : p = q
      · rw [if_pos hpq, if_pos hpq]
        have hd : decide (e.1 = p) = false := by
          simp only [decide_eq_false_iff_not]
          intro hep
          exact he (hep.trans hpq)
        simp [hd]
      · rw [if_neg hpq, if_neg hpq]

/-- A freshly written path exists. -/
theorem fsHas_fsWrite_self (p : LocalPath) (c : FileContent) (fs : FS) :
    fsHas p (fsWrite p c fs) = true := by
  simp [fsHas, fsWrite]

/-- Writing elsewhere preserves existence. -/
theorem fsHas_fsWrite_of (p q : LocalPath) (c : FileContent) (fs : FS)
    (h : fsHas p fs = true) : fsHas p (fsWrite q c fs) = true := by
  simp [fsHas, fsWrite] at h ⊢
  exact Or.inr h

/-- Whatever the environment, `exportDeposit` on a non-null fetch emits the
single `meta.json` write of the reconstructed document. -/
theorem exportDeposit_writeMeta_mem (env : ExportEnv)
    (depositId downloadPath : String) (dp : DepositPopulated) (fs : FS)
    (hfetch : env.fetchResult = some dp) :
    XEvent.writeMeta ⟨downloadPath, "meta.json"⟩ (reconstructDeposit dp) ∈
      (exportDeposit depositId downloadPath env fs).2.2 := by
  rcases env with ⟨fR, st, hdr, sg, ak⟩
  cases hfetch
  by_cases h302 : st = 302
  · cases hdr with
    | none =>
        cases ak <;>
          simp [exportDeposit, getDepositById, downloadDepositFile,
            downloadDepositFileAttempt, h302]
    | some u =>
        cases sg <;> cases ak <;>
          simp [exportDeposit, getDepositById, downloadDepositFile,
            downloadDepositFileAttempt, h302]
  · cases ak <;>
      simp [exportDeposit, getDepositById, downloadDepositFile,
        downloadDepositFileAttempt, h302]

/-- C3: when the deposit fetch returns the null sentinel, `exportDeposit`
raises the explicit error, leaves the filesystem untouched, and performs no
event beyond the fetch itself. -/
theorem exportDeposit_null_fetch_aborts (env : ExportEnv)
    (depositId downloadPath : String) (fs : FS)
    (hfetch : env.fetchResult = none) :
    exportDeposit depositId downloadPath env fs =
      (Res.err "depositPopulated cannot be null", fs,
        [XEvent.fetchDeposit depositId]) := by
  rcases env with ⟨fR, st, hdr, sg, ak⟩
  cases hfetch
  rfl

/-- C3 witness: the theorem evaluated on a concrete null-fetch
environment. -/
theorem exportDeposit_null_fetch_aborts_witness :
    exportDeposit "64a09f6ce3d5ff0813586345" "out" xEnvNull [] =
      (Res.err "depositPopulated cannot be null", [],
        [XEvent.fetchDeposit "64a09f6ce3d5ff0813586345"]) :=
  exportDeposit_null_fetch_aborts xEnvNull "64a09f6ce3d5ff0813586345" "out" []
    rfl

/-- C6: when the file-location request returns any non-redirect status, the
downloader leaves the filesystem untouched and writes no manuscript file. -/
theorem downloadDepositFile_non_redirect_no_write (env : ExportEnv)
    (depositId filename downloadPath : String) (fs : FS)
    (hst : env.locationStatus ≠ 302) :
    (downloadDepositFile depositId filename downloadPath env fs).2.1 = fs ∧
    ∀ p, XEvent.writeManuscript p ∉
        (downloadDepositFile depositId filename downloadPath env fs).2.2 := by
  rcases env with ⟨fR, st, hdr, sg, ak⟩
  simp only [ExportEnv.locationStatus] at hst
  simp [downloadDepositFile, downloadDepositFileAttempt, hst]

/-- C6 witness: the theorem evaluated on a concrete status-500
environment. -/
theorem downloadDepositFile_non_redirect_no_write_witness :
    (downloadDepositFile "64a09f6ce3d5ff0813586345" "X.docx" "out"
        xEnvBadStatus []).2.1 = [] ∧
    ∀ p, XEvent.writeManuscript p ∉
        (downloadDepositFile "64a09f6ce3d5ff0813586345" "X.docx" "out"
          xEnvBadStatus []).2.2 :=
  downloadDepositFile_non_redirect_no_write xEnvBadStatus
    "64a09f6ce3d5ff0813586345" "X.docx" "out" [] (by decide)

/-- C5 counterexample: with a failing file-location request the downloader
still resolves normally (its promise does not reject), contradicting the
claim that it fails with a DownloadError. -/
theorem downloadDepositFile_claim_counterexample :
    (downloadDepositFile "64a09f6ce3d5ff0813586345" "X.docx" "out"
        xEnvBadStatus []).1 = Res.ok () ∧
    ∀ e, (downloadDepositFile "64a09f6ce3d5ff0813586345" "X.docx" "out"
        xEnvBadStatus []).1 ≠ Res.err e := by
  constructor
  · rfl
  · intro e h
    exact Res.noConfusion h

/-- C5 amended: when the location response is not a redirect, lacks the
location header, or the signed download fails, `downloadDepositFile`
catches the error, logs it, writes nothing, and resolves normally. -/
theorem downloadDepositFile_swallows_errors (env : ExportEnv)
    (depositId filename downloadPath : String) (fs : FS)
    (hfail : env.locationStatus ≠ 302 ∨ env.locationHeader = none ∨
      env.signedGetOk = false) :
    (downloadDepositFile depositId filename downloadPath env fs).1 =
      Res.ok () ∧
    (∃ e, XEvent.logError e ∈
        (downloadDepositFile depositId filename downloadPath env fs).2.2) ∧
    (downloadDepositFile depositId filename downloadPath env fs).2.1 = fs := by
  rcases env with ⟨fR, st, hdr, sg, ak⟩
  simp only [ExportEnv.locationStatus, ExportEnv.locationHeader,
    ExportEnv.signedGetOk] at hfail
  by_cases h302 : st = 302
  · rcases hfail with h | h | h
    · exact absurd h302 h
    · cases hdr with
      | none => simp [downloadDepositFile, downloadDepositFileAttempt, h302]
      | some u => cases h
    · cases hdr with
      | none => simp [downloadDepositFile, downloadDepositFileAttempt, h302]
      | some u =>
          simp [downloadDepositFile, downloadDepositFileAttempt, h302, h]
  · simp [downloadDepositFile, downloadDepositFileAttempt, h302]

/-- C5 amended witness: the amended theorem evaluated on a concrete
status-500 environment. -/
theorem downloadDepositFile_swallows_errors_witness :
    (downloadDepositFile "64a09f6ce3d5ff0813586345" "X.docx" "out"
        xEnvBadStatus []).1 = Res.ok () ∧
    (∃ e, XEvent.logError e ∈
        (downloadDepositFile "64a09f6ce3d5ff0813586345" "X.docx" "out"
          xEnvBadStatus []).2.2) ∧
    (downloadDepositFile "64a09f6ce3d5ff0813586345" "X.docx" "out"
        xEnvBadStatus []).2.1 = [] :=
  downloadDepositFile_swallows_errors xEnvBadStatus "64a09f6ce3d5ff0813586345"
    "X.docx" "out" [] (Or.inl (by decide))

/-- C2: when `publicationFile.filename` and `publicationFile.description`
differ, the exported `meta.json` document carries the description as its
`manuscript.filename`, the archive entries are exactly `meta.json` and the
manuscript under its description-derived name, the file-location request
targets the filename, and the only possible loose manuscript path is
`<downloadPath>/<filename>`. -/
theorem exportDeposit_description_fields (env : ExportEnv)
    (depositId downloadPath : String) (dp : DepositPopulated) (fs : FS)
    (hfetch : env.fetchResult = some dp)
    (hdiff : dp.publicationFile.filename ≠ dp.publicationFile.description) :
    (reconstructDeposit dp).manuscript.filename =
        dp.publicationFile.description ∧
    XEvent.writeMeta ⟨downloadPath, "meta.json"⟩ (reconstructDeposit dp) ∈
        (exportDeposit depositId downloadPath env fs).2.2 ∧
    ((exportDeposit depositId downloadPath env fs).2.2).filterMap
        archiveEntryOf =
      [(⟨downloadPath, "meta.json"⟩, "meta.json"),
        (⟨downloadPath, dp.publicationFile.filename⟩,
          dp.publicationFile.description)] ∧
    XEvent.requestFileLocation depositId dp.publicationFile.filename
        env.locationStatus ∈
      (exportDeposit depositId downloadPath env fs).2.2 ∧
    ∀ p, XEvent.writeManuscript p ∈
        (exportDeposit depositId downloadPath env fs).2.2 →
      p = ⟨downloadPath, dp.publicationFile.filename⟩ := by
  refine ⟨rfl, exportDeposit_writeMeta_mem env depositId downloadPath dp fs
    hfetch, ?_⟩
  rcases env with ⟨fR, st, hdr, sg, ak⟩
  cases hfetch
  by_cases h302 : st = 302
  · cases hdr with
    | none =>
        cases ak <;>
          simp [exportDeposit, getDepositById, downloadDepositFile,
            downloadDepositFileAttempt, h302, archiveEntryOf,
            reconstructDeposit]
    | some u =>
        cases sg <;> cases ak <;>
          simp [exportDeposit, getDepositById, downloadDepositFile,
            downloadDepositFileAttempt, h302, archiveEntryOf,
            reconstructDeposit]
  · cases ak <;>
      simp [exportDeposit, getDepositById, downloadDepositFile,
        downloadDepositFileAttempt, h302, archiveEntryOf,
        reconstructDeposit]

/-- C2 witness: the archive-entry equation of the theorem evaluated on a
concrete deposit with filename X.docx and description Y.docx. -/
theorem exportDeposit_description_fields_witness :
    ((exportDeposit "64a09f6ce3d5ff0813586345" "out" xEnvOk []).2.2).filterMap
        archiveEntryOf =
      [(⟨"out", "meta.json"⟩, "meta.json"),
        (⟨"out", "X.docx"⟩, "Y.docx")] :=
  (exportDeposit_description_fields xEnvOk "64a09f6ce3d5ff0813586345" "out"
    dpSample [] rfl (by decide)).2.2.1

/-- C10: the rebuilt author objects written into `meta.json` default
`nickName`, `email` and `orcid` to the empty string when absent, and always
carry an `email` value taken from the fetched author. -/
theorem exportDeposit_author_defaults (env : ExportEnv)
    (depositId downloadPath : String) (dp : DepositPopulated) (fs : FS)
    (hfetch : env.fetchResult = some dp) :
    XEvent.writeMeta ⟨downloadPath, "meta.json"⟩ (reconstructDeposit dp) ∈
        (exportDeposit depositId downloadPath env fs).2.2 ∧
    (reconstructDeposit dp).authors = dp.authors.map rebuildAuthor ∧
    ∀ author : FetchedAuthor,
      (rebuildAuthor author).email = author.email.getD "" ∧
      (author.nickName = none → (rebuildAuthor author).nickName = "") ∧
      (author.email = none → (rebuildAuthor author).email = "") ∧
      (author.orcid = none → (rebuildAuthor author).orcid = "") := by
  refine ⟨exportDeposit_writeMeta_mem env depositId downloadPath dp fs
    hfetch, rfl, ?_⟩
  intro author
  refine ⟨rfl, ?_, ?_, ?_⟩ <;> intro h <;> simp [rebuildAuthor, h]

/-- C10 witness: the theorem evaluated on a concrete deposit whose single
author has no nickName, email or orcid. -/
theorem exportDeposit_author_defaults_witness :
    XEvent.writeMeta ⟨"out", "meta.json"⟩ (reconstructDeposit dpSample) ∈
        (exportDeposit "64a09f6ce3d5ff0813586345" "out" xEnvOk []).2.2 ∧
    (rebuildAuthor faSample).nickName = "" ∧
    (rebuildAuthor faSample).email = "" ∧
    (rebuildAuthor faSample).orcid = "" :=
  ⟨(exportDeposit_author_defaults xEnvOk "64a09f6ce3d5ff0813586345" "out"
      dpSample [] rfl).1,
    ((exportDeposit_author_defaults xEnvOk "64a09f6ce3d5ff0813586345" "out"
      dpSample [] rfl).2.2 faSample).2.1 rfl,
    ((exportDeposit_author_defaults xEnvOk "64a09f6ce3d5ff0813586345" "out"
      dpSample [] rfl).2.2 faSample).2.2.1 rfl,
    ((exportDeposit_author_defaults xEnvOk "64a09f6ce3d5ff0813586345" "out"
      dpSample [] rfl).2.2 faSample).2.2.2 rfl⟩

/-- C7: with a successful fetch and download, a successful archive build
leaves neither loose file in the target directory, while a failed archive
build leaves both. -/
theorem exportDeposit_cleanup_on_archive (env : ExportEnv)
    (depositId downloadPath : String) (dp : DepositPopulated) (fs : FS)
    (u : String)
    (hfetch : env.fetchResult = some dp)
    (h302 : env.locationStatus = 302)
    (hhdr : env.locationHeader = some u)
    (hget : env.signedGetOk = true) :
    (env.archiveOk = true →
      fsHas ⟨downloadPath, "meta.json"⟩
          (exportDeposit depositId downloadPath env fs).2.1 = false ∧
      fsHas ⟨downloadPath, dp.publicationFile.filename⟩
          (exportDeposit depositId downloadPath env fs).2.1 = false) ∧
    (env.archiveOk = false →
      fsHas ⟨downloadPath, "meta.json"⟩
          (exportDeposit depositId downloadPath env fs).2.1 = true ∧
      fsHas ⟨downloadPath, dp.publicationFile.filename⟩
          (exportDeposit depositId downloadPath env fs).2.1 = true) := by
  rcases env with ⟨fR, st, hdr, sg, ak⟩
  cases hfetch
  simp only [ExportEnv.locationStatus] at h302
  simp only [ExportEnv.locationHeader] at hhdr
  simp only [ExportEnv.signedGetOk] at hget
  cases hhdr
  cases hget
  set metaP : LocalPath := ⟨downloadPath, "meta.json"⟩ with hmeta
  set manP : LocalPath := ⟨downloadPath, dp.publicationFile.filename⟩
    with hman
  cases ak with
  | true =>
      refine ⟨fun _ => ?_, fun h => Bool.noConfusion h⟩
      have hred : (exportDeposit depositId downloadPath
          ⟨some dp, st, some u, true, true⟩ fs).2.1 =
          fsUnlink manP (fsUnlink metaP
            (fsWrite ⟨downloadPath, "deposit_" ++ depositId ++ ".zip"⟩
              FileContent.zipArchive
              (fsWrite manP FileContent.manuscriptBytes
                (fsWrite metaP
                  (FileContent.metaDoc (reconstructDeposit dp)) fs)))) := by
        simp [exportDeposit, getDepositById, downloadDepositFile,
          downloadDepositFileAttempt, h302, hmeta, hman]
      rw [hred]
      constructor
      · rw [fsHas_fsUnlink, fsHas_fsUnlink]
        by_cases hpq : metaP = manP <;> simp [hpq]
      · rw [fsHas_fsUnlink]
        simp
  | false =>
      refine ⟨fun h => Bool.noConfusion h, fun _ => ?_⟩
      have hred : (exportDeposit depositId downloadPath
          ⟨some dp, st, some u, true, false⟩ fs).2.1 =
          fsWrite manP FileContent.manuscriptBytes
            (fsWrite metaP
              (FileContent.metaDoc (reconstructDeposit dp)) fs) := by
        simp [exportDeposit, getDepositById, downloadDepositFile,
          downloadDepositFileAttempt, h302, hmeta, hman]
      rw [hred]
      constructor
      · exact fsHas_fsWrite_of _ _ _ _ (fsHas_fsWrite_self _ _ _)
      · exact fsHas_fsWrite_self _ _ _

/-- C7 witness: both directions of the theorem evaluated on concrete
environments differing only in archive success. -/
theorem exportDeposit_cleanup_on_archive_witness :
    (fsHas ⟨"out", "meta.json"⟩
        (exportDeposit "64a09f6ce3d5ff0813586345" "out" xEnvOk []).2.1 =
      false ∧
    fsHas ⟨"out", "X.docx"⟩
        (exportDeposit "64a09f6ce3d5ff0813586345" "out" xEnvOk []).2.1 =
      false) ∧
    (fsHas ⟨"out", "meta.json"⟩
        (exportDeposit "64a09f6ce3d5ff0813586345" "out" xEnvNoArchive
          []).2.1 = true ∧
    fsHas ⟨"out", "X.docx"⟩
        (exportDeposit "64a09f6ce3d5ff0813586345" "out" xEnvNoArchive
          []).2.1 = true) :=
  ⟨(exportDeposit_cleanup_on_archive xEnvOk "64a09f6ce3d5ff0813586345" "out"
      dpSample [] "https://u.example" rfl rfl rfl rfl).1 rfl,
    (exportDeposit_cleanup_on_archive xEnvNoArchive "64a09f6ce3d5ff0813586345"
      "out" dpSample [] "https://u.example" rfl rfl rfl rfl).2 rfl⟩

/-- C8: mapping `transformAuthor` over any author list preserves length and
order, and each output's firstName, lastName and orcid are the source's
first_name, last_name and orcid. -/
theorem transformAuthor_total_order_preserving (authors : List InputAuthor) :
    (authors.map transformAuthor).length = authors.length ∧
    ∀ i, i < authors.length →
      ∃ src dst, authors.get? i = some src ∧
        (authors.map transformAuthor).get? i = some dst ∧
        dst.firstName = src.first_name ∧ dst.lastName = src.last_name ∧
        dst.orcid = some src.orcid := by
  refine ⟨List.length_map authors transformAuthor, ?_⟩
  intro i h
  refine ⟨authors.get ⟨i, h⟩, transformAuthor (authors.get ⟨i, h⟩),
    List.get?_eq_get h, ?_, rfl, rfl, rfl⟩
  rw [List.get?_map, List.get?_eq_get h]
  rfl

/-- C8 witness: the theorem evaluated at index 0 of a one-author list. -/
theorem transformAuthor_total_order_preserving_witness :
    ∃ src dst, [iaSample].get? 0 = some src ∧
      ([iaSample].map transformAuthor).get? 0 = some dst ∧
      dst.firstName = src.first_name ∧ dst.lastName = src.last_name ∧
      dst.orcid = some src.orcid :=
  (transformAuthor_total_order_preserving [iaSample]).2 0 (by decide)

/-- C9: the confirmation call sends exactly the upload response minus its
`signedUrl` field: the body's three fields are the response's own, and the
emitted PATCH carries that body. -/
theorem confirmManuscriptImported_strips_signedUrl (depositId : String)
    (u : UploadSignedUrlResponse) (env : ImportEnv) :
    (confirmBodyOf u).fileMetadata = u.fileMetadata ∧
    (confirmBodyOf u).isMainFile = u.isMainFile ∧
    (confirmBodyOf u).replacePDF = u.replacePDF ∧
    ∃ tail, (confirmManuscriptImported depositId u env).2 =
        IEvent.confirmUpload depositId (confirmBodyOf u) :: tail := by
  refine ⟨rfl, rfl, rfl, ?_⟩
  cases h : env.confirmResult with
  | ok v => exact ⟨[], by simp [confirmManuscriptImported, h]⟩
  | err e =>
      exact ⟨[.logError e], by simp [confirmManuscriptImported, h]⟩

/-- C4: `importDeposit` always resolves normally, and whenever its body
failed, the swallowed error was logged at the orchestrator boundary. -/
theorem importDeposit_never_rejects (env : ImportEnv)
    (directoryPath community : String) :
    (importDeposit directoryPath community env).1 = Res.ok () ∧
    ∀ e, (importDepositBody directoryPath community env).1 = Res.err e →
      IEvent.logError ("An error occurred during import or upload: " ++ e) ∈
        (importDeposit directoryPath community env).2 := by
  rcases h : importDepositBody directoryPath community env with ⟨r, tr⟩
  cases r with
  | ok v =>
      refine ⟨by simp [importDeposit, h], ?_⟩
      intro e he
      exact absurd he (by simp)
  | err e0 =>
      refine ⟨by simp [importDeposit, h], ?_⟩
      intro e he
      simp at he
      subst he
      simp [importDeposit, h]

/-- C4 witness: the theorem evaluated on a concrete environment whose
metadata load fails with the message boom. -/
theorem importDeposit_never_rejects_witness :
    (importDeposit "dir" "comm" envLoadFail).1 = Res.ok () ∧
    IEvent.logError ("An error occurred during import or upload: " ++ "boom")
      ∈ (importDeposit "dir" "comm" envLoadFail).2 :=
  ⟨(importDeposit_never_rejects envLoadFail "dir" "comm").1,
    (importDeposit_never_rejects envLoadFail "dir" "comm").2 "boom"
      (by decide)⟩

/-- C1: the remote stages performed by `importDeposit` always form a
prefix of create, negotiate, transfer, confirm; no stage runs once an
earlier stage has failed: a load failure yields no remote stage, a
create-deposit failure or a stat failure after it stops at the create
attempt, a negotiation failure stops at the negotiate attempt, a transfer
failure stops at the transfer attempt; and when every stage succeeds each
of the four runs exactly once in exactly that order. -/
theorem importDeposit_stage_order (env : ImportEnv)
    (directoryPath community : String) :
    (∃ rest, stagesOf (importDeposit directoryPath community env).2 ++ rest =
        [Stage.create, Stage.negotiate, Stage.transfer, Stage.confirmB]) ∧
    (metaOk env = false →
      stagesOf (importDeposit directoryPath community env).2 = []) ∧
    (metaOk env = true → createOk env = false →
      stagesOf (importDeposit directoryPath community env).2 =
        [Stage.create]) ∧
    (metaOk env = true → createOk env = true → statOk env = false →
      stagesOf (importDeposit directoryPath community env).2 =
        [Stage.create]) ∧
    (metaOk env = true → createOk env = true → statOk env = true →
      negotiateOk env = false →
      stagesOf (importDeposit directoryPath community env).2 =
        [Stage.create, Stage.negotiate]) ∧
    (metaOk env = true → createOk env = true → statOk env = true →
      negotiateOk env = true → putOk env = false →
      stagesOf (importDeposit directoryPath community env).2 =
        [Stage.create, Stage.negotiate, Stage.transfer]) ∧
    (importAllOk env = true →
      stagesOf (importDeposit directoryPath community env).2 =
        [Stage.create, Stage.negotiate, Stage.transfer, Stage.confirmB]) := by
  obtain ⟨mR, sR, cR, nR, pR, fR⟩ := env
  cases mR with
  | err e =>
      exact ⟨⟨[Stage.create, Stage.negotiate, Stage.transfer, Stage.confirmB],
        rfl⟩, fun _ => rfl, fun h _ => Bool.noConfusion h,
        fun h _ _ => Bool.noConfusion h, fun h _ _ _ => Bool.noConfusion h,
        fun h _ _ _ _ => Bool.noConfusion h, fun h => Bool.noConfusion h⟩
  | ok m =>
    cases cR with
    | err e =>
        exact ⟨⟨[Stage.negotiate, Stage.transfer, Stage.confirmB], rfl⟩,
          fun h => Bool.noConfusion h, fun _ _ => rfl,
          fun _ h _ => Bool.noConfusion h, fun _ h _ _ => Bool.noConfusion h,
          fun _ h _ _ _ => Bool.noConfusion h, fun h => Bool.noConfusion h⟩
    | ok resp =>
      obtain ⟨oid⟩ := resp
      cases oid with
      | none =>
          exact ⟨⟨[Stage.negotiate, Stage.transfer, Stage.confirmB], rfl⟩,
            fun h => Bool.noConfusion h, fun _ _ => rfl,
            fun _ h _ => Bool.noConfusion h,
            fun _ h _ _ => Bool.noConfusion h,
            fun _ h _ _ _ => Bool.noConfusion h, fun h => Bool.noConfusion h⟩
      | some theId =>
        cases sR with
        | err e =>
            exact ⟨⟨[Stage.negotiate, Stage.transfer, Stage.confirmB], rfl⟩,
              fun h => Bool.noConfusion h, fun _ h => Bool.noConfusion h,
              fun _ _ _ => rfl, fun _ _ h _ => Bool.noConfusion h,
              fun _ _ h _ _ => Bool.noConfusion h,
              fun h => Bool.noConfusion h⟩
        | ok st =>
          cases nR with
          | err e =>
              exact ⟨⟨[Stage.transfer, Stage.confirmB], rfl⟩,
                fun h => Bool.noConfusion h, fun _ h => Bool.noConfusion h,
                fun _ _ h => Bool.noConfusion h, fun _ _ _ _ => rfl,
                fun _ _ _ h _ => Bool.noConfusion h,
                fun h => Bool.noConfusion h⟩
          | ok uresp =>
            cases pR with
            | err e =>
                exact ⟨⟨[Stage.confirmB], rfl⟩,
                  fun h => Bool.noConfusion h, fun _ h => Bool.noConfusion h,
                  fun _ _ h => Bool.noConfusion h,
                  fun _ _ _ h => Bool.noConfusion h, fun _ _ _ _ _ => rfl,
                  fun h => Bool.noConfusion h⟩
            | ok pv =>
              cases fR with
              | err e =>
                  exact ⟨⟨[], rfl⟩,
                    fun h => Bool.noConfusion h,
                    fun _ h => Bool.noConfusion h,
                    fun _ _ h => Bool.noConfusion h,
                    fun _ _ _ h => Bool.noConfusion h,
                    fun _ _ _ _ h => Bool.noConfusion h,
                    fun h => Bool.noConfusion h⟩
              | ok fv =>
                  exact ⟨⟨[], rfl⟩,
                    fun h => Bool.noConfusion h,
                    fun _ h => Bool.noConfusion h,
                    fun _ _ h => Bool.noConfusion h,
                    fun _ _ _ h => Bool.noConfusion h,
                    fun _ _ _ _ h => Bool.noConfusion h,
                    fun _ => rfl⟩

/-- C1 witness: on a concrete all-success environment the four stages run
exactly once in order, and on a concrete environment whose negotiation
fails the trace stops after the negotiate attempt. -/
theorem importDeposit_stage_order_witness :
    stagesOf (importDeposit "dir" "comm" envAllOk).2 =
      [Stage.create, Stage.negotiate, Stage.transfer, Stage.confirmB] ∧
    stagesOf (importDeposit "dir" "comm" envNegotiateFail).2 =
      [Stage.create, Stage.negotiate] :=
  ⟨(importDeposit_stage_order envAllOk "dir" "comm").2.2.2.2.2.2 (by decide),
    (importDeposit_stage_order envNegotiateFail "dir" "comm").2.2.2.2.1
      (by decide) (by decide) (by decide) (by decide)⟩
